import Mathlib

/-!
Verification of the chainremit_backend notification-dispatch subsystem.

The definitions below are a shallow embedding, in Lean, of the TypeScript
sources: `notification.types.ts` (data model), the in-memory
`NotificationDatabase` (`notification.model.ts`), the orchestrator
`NotificationService` (`notification.service.ts`), the Bull-backed
`QueueService` (`queue.service.ts`), and the channel senders
(`sms.service.ts`, `push.service.ts`).  Mutable class state becomes
explicit state passing on a `NotificationDatabase` value; `Date` values
become `Nat` millisecond timestamps threaded as a `now` parameter;
`crypto.randomUUID` becomes an injected id supply; external collaborators
(Handlebars rendering, the Twilio/Firebase SDK calls, Redis availability)
become explicit oracle parameters.  Fallible paths return `Except` (a JS
`throw` is an `Except.error`).
-/

namespace ChainRemit

/-- The 16-variant notification type enum from `notification.types.ts`. -/
inductive NotificationType
  | transaction_confirmation
  | transaction_pending
  | transaction_failed
  | security_alert
  | login_alert
  | password_reset
  | email_verification
  | kyc_approved
  | kyc_rejected
  | wallet_connected
  | balance_low
  | system_maintenance
  | marketing_campaign
  | welcome
  | payment_received
  | payment_sent
  deriving DecidableEq, Repr

/-- The channel enum: email, sms, push. -/
inductive NotificationChannel
  | email
  | sms
  | push
  deriving DecidableEq, Repr

/-- Delivery status enum. -/
inductive NotificationStatus
  | pending
  | sent
  | delivered
  | failed
  | retrying
  deriving DecidableEq, Repr

/-- Priority enum. -/
inductive NotificationPriority
  | low
  | normal
  | high
  | critical
  deriving DecidableEq, Repr

/-- The `email` block of `NotificationPreferences`. -/
structure EmailPrefs where
  enabled : Bool
  transactionUpdates : Bool
  securityAlerts : Bool
  marketingEmails : Bool
  systemNotifications : Bool
  deriving DecidableEq, Repr

/-- The `sms` block of `NotificationPreferences`. -/
structure SMSPrefs where
  enabled : Bool
  transactionUpdates : Bool
  securityAlerts : Bool
  criticalAlerts : Bool
  deriving DecidableEq, Repr

/-- The `push` block of `NotificationPreferences`. -/
structure PushPrefs where
  enabled : Bool
  transactionUpdates : Bool
  securityAlerts : Bool
  marketingUpdates : Bool
  systemNotifications : Bool
  deriving DecidableEq, Repr

/-- One per-user preference record. -/
structure NotificationPreferences where
  userId : String
  email : EmailPrefs
  sms : SMSPrefs
  push : PushPrefs
  createdAt : Nat
  updatedAt : Nat
  deriving DecidableEq, Repr

/-- A notification template (subject/content hold the raw pattern text). -/
structure NotificationTemplate where
  id : String
  name : String
  type : NotificationType
  channels : List NotificationChannel
  subject : String
  content : String
  templateVariables : List String
  isActive : Bool
  createdAt : Nat
  updatedAt : Nat
  deriving DecidableEq, Repr

/-- One history record per delivery attempt cycle.  The opaque
`Record<string, any>` metadata map is embedded as a string association
list. -/
structure NotificationHistory where
  id : String
  userId : String
  templateId : String
  type : NotificationType
  channel : NotificationChannel
  recipient : String
  subject : String
  content : String
  status : NotificationStatus
  deliveredAt : Option Nat
  failedAt : Option Nat
  errorMessage : Option String
  retryCount : Nat
  metadata : List (String × String)
  createdAt : Nat
  updatedAt : Nat
  deriving DecidableEq, Repr

/-- One unit of per-channel dispatch work. -/
structure NotificationJob where
  id : String
  userId : String
  templateId : String
  type : NotificationType
  channel : NotificationChannel
  recipient : String
  data : List (String × String)
  priority : NotificationPriority
  scheduledAt : Option Nat
  attempts : Nat
  maxAttempts : Nat
  createdAt : Nat
  deriving DecidableEq, Repr

/-- The in-memory `NotificationDatabase` singleton state. -/
structure NotificationDatabase where
  preferences : List NotificationPreferences
  templates : List NotificationTemplate
  history : List NotificationHistory
  jobs : List NotificationJob
  deriving DecidableEq, Repr

/-- `createDefaultPreferences`: pushes the default-allow record (all flags
true except the marketing-class flags) and returns it. -/
def createDefaultPreferences (db : NotificationDatabase) (userId : String)
    (now : Nat) : NotificationDatabase × NotificationPreferences :=
  let prefs : NotificationPreferences :=
    { userId := userId
      email :=
        { enabled := true
          transactionUpdates := true
          securityAlerts := true
          marketingEmails := false
          systemNotifications := true }
      sms :=
        { enabled := true
          transactionUpdates := true
          securityAlerts := true
          criticalAlerts := true }
      push :=
        { enabled := true
          transactionUpdates := true
          securityAlerts := true
          marketingUpdates := false
          systemNotifications := true }
      createdAt := now
      updatedAt := now }
  ({ db with preferences := db.preferences ++ [prefs] }, prefs)

/-- `findPreferencesByUserId`: first record whose `userId` matches, else
null. -/
def findPreferencesByUserId (db : NotificationDatabase) (userId : String) :
    Option NotificationPreferences :=
  db.preferences.find? (fun p => p.userId == userId)

/-- `isEmailTypeEnabled` from `notification.service.ts`. -/
def isEmailTypeEnabled (p : NotificationPreferences) :
    NotificationType → Bool
  | .transaction_confirmation => p.email.transactionUpdates
  | .transaction_pending => p.email.transactionUpdates
  | .transaction_failed => p.email.transactionUpdates
  | .payment_received => p.email.transactionUpdates
  | .payment_sent => p.email.transactionUpdates
  | .security_alert => p.email.securityAlerts
  | .login_alert => p.email.securityAlerts
  | .marketing_campaign => p.email.marketingEmails
  | .system_maintenance => p.email.systemNotifications
  | .welcome => p.email.systemNotifications
  | .email_verification => p.email.systemNotifications
  | _ => true

/-- `isSMSTypeEnabled` from `notification.service.ts` (default false). -/
def isSMSTypeEnabled (p : NotificationPreferences) :
    NotificationType → Bool
  | .transaction_confirmation => p.sms.transactionUpdates
  | .transaction_pending => p.sms.transactionUpdates
  | .transaction_failed => p.sms.transactionUpdates
  | .payment_received => p.sms.transactionUpdates
  | .payment_sent => p.sms.transactionUpdates
  | .security_alert => p.sms.securityAlerts
  | .login_alert => p.sms.securityAlerts
  | .system_maintenance => p.sms.criticalAlerts
  | .balance_low => p.sms.criticalAlerts
  | _ => false

/-- `isPushTypeEnabled` from `notification.service.ts`.  Note: unlike the
email case list, `email_verification` is NOT in the `systemNotifications`
case group here and so falls to the default (`true`). -/
def isPushTypeEnabled (p : NotificationPreferences) :
    NotificationType → Bool
  | .transaction_confirmation => p.push.transactionUpdates
  | .transaction_pending => p.push.transactionUpdates
  | .transaction_failed => p.push.transactionUpdates
  | .payment_received => p.push.transactionUpdates
  | .payment_sent => p.push.transactionUpdates
  | .security_alert => p.push.securityAlerts
  | .login_alert => p.push.securityAlerts
  | .marketing_campaign => p.push.marketingUpdates
  | .system_maintenance => p.push.systemNotifications
  | .welcome => p.push.systemNotifications
  | _ => true

/-- `isChannelEnabledForType`: master switch short-circuit, then the
per-channel category check. -/
def isChannelEnabledForType (p : NotificationPreferences)
    (channel : NotificationChannel) (type : NotificationType) : Bool :=
  match channel with
  | .email => if !p.email.enabled then false else isEmailTypeEnabled p type
  | .sms => if !p.sms.enabled then false else isSMSTypeEnabled p type
  | .push => if !p.push.enabled then false else isPushTypeEnabled p type

/-- `filterEnabledChannels`: looks the user's record up; with no record the
requested list passes through unchanged, otherwise each requested channel
is kept iff `isChannelEnabledForType`. -/
def filterEnabledChannels (db : NotificationDatabase) (userId : String)
    (channels : List NotificationChannel) (type : NotificationType) :
    List NotificationChannel :=
  match findPreferencesByUserId db userId with
  | none => channels
  | some prefs => channels.filter (fun c => isChannelEnabledForType prefs c type)

/-- The channel's master `enabled` flag. -/
def masterEnabled (p : NotificationPreferences) :
    NotificationChannel → Bool
  | .email => p.email.enabled
  | .sms => p.sms.enabled
  | .push => p.push.enabled

/-- Modelled from the spec: the category mapping table of spec section 4.1,
written from the spec's words (channel-independent grouping applied to each
channel's category set; types without an explicit mapping default to true
for email/push and false for SMS).  This is the spec-side definition used
to compare against the code's `is*TypeEnabled` functions. -/
def specCategoryAllowed (p : NotificationPreferences)
    (channel : NotificationChannel) (type : NotificationType) : Bool :=
  match channel, type with
  | .email, .transaction_confirmation => p.email.transactionUpdates
  | .email, .transaction_pending => p.email.transactionUpdates
  | .email, .transaction_failed => p.email.transactionUpdates
  | .email, .payment_received => p.email.transactionUpdates
  | .email, .payment_sent => p.email.transactionUpdates
  | .email, .security_alert => p.email.securityAlerts
  | .email, .login_alert => p.email.securityAlerts
  | .email, .marketing_campaign => p.email.marketingEmails
  | .email, .system_maintenance => p.email.systemNotifications
  | .email, .welcome => p.email.systemNotifications
  | .email, .email_verification => p.email.systemNotifications
  | .email, _ => true
  | .sms, .transaction_confirmation => p.sms.transactionUpdates
  | .sms, .transaction_pending => p.sms.transactionUpdates
  | .sms, .transaction_failed => p.sms.transactionUpdates
  | .sms, .payment_received => p.sms.transactionUpdates
  | .sms, .payment_sent => p.sms.transactionUpdates
  | .sms, .security_alert => p.sms.securityAlerts
  | .sms, .login_alert => p.sms.securityAlerts
  | .sms, .system_maintenance => p.sms.criticalAlerts
  | .sms, .balance_low => p.sms.criticalAlerts
  | .sms, _ => false
  | .push, .transaction_confirmation => p.push.transactionUpdates
  | .push, .transaction_pending => p.push.transactionUpdates
  | .push, .transaction_failed => p.push.transactionUpdates
  | .push, .payment_received => p.push.transactionUpdates
  | .push, .payment_sent => p.push.transactionUpdates
  | .push, .security_alert => p.push.securityAlerts
  | .push, .login_alert => p.push.securityAlerts
  | .push, .marketing_campaign => p.push.marketingUpdates
  | .push, .system_maintenance => p.push.systemNotifications
  | .push, .welcome => p.push.systemNotifications
  | .push, .email_verification => p.push.systemNotifications
  | .push, _ => true

/-- The spec mapping amended at the single cell where the code deviates:
the code's push resolver treats `email_verification` as an unmapped type
(allowed = true) instead of mapping it to `push.systemNotifications`. -/
def specCategoryAllowedAmended (p : NotificationPreferences)
    (channel : NotificationChannel) (type : NotificationType) : Bool :=
  match channel, type with
  | .push, .email_verification => true
  | c, t => specCategoryAllowed p c t

/-- `Partial<NotificationPreferences>` at the model method's declared type:
each top-level field may be present or absent (`updatedAt` is always
overwritten by the merge, so an update value for it has no effect and is
kept here for fidelity). -/
structure PreferencesUpdate where
  userId : Option String := none
  email : Option EmailPrefs := none
  sms : Option SMSPrefs := none
  push : Option PushPrefs := none
  createdAtField : Option Nat := none
  deriving DecidableEq, Repr

/-- The JS spread `{ ...old, ...updates, updatedAt: new Date() }`: each
top-level field present in the update replaces the old one; `updatedAt` is
set last. -/
def applyPreferencesUpdate (p : NotificationPreferences)
    (u : PreferencesUpdate) (now : Nat) : NotificationPreferences :=
  { userId := u.userId.getD p.userId
    email := u.email.getD p.email
    sms := u.sms.getD p.sms
    push := u.push.getD p.push
    createdAt := u.createdAtField.getD p.createdAt
    updatedAt := now }

/-- `updatePreferences` over the backing list: `findIndex` then in-place
replacement of the first matching record; null when no record matches. -/
def updatePreferencesList (userId : String) (u : PreferencesUpdate)
    (now : Nat) : List NotificationPreferences →
    Option (List NotificationPreferences × NotificationPreferences)
  | [] => none
  | p :: rest =>
    if p.userId == userId then
      let p2 := applyPreferencesUpdate p u now
      some (p2 :: rest, p2)
    else
      match updatePreferencesList userId u now rest with
      | none => none
      | some (l, p2) => some (p :: l, p2)

/-- `NotificationDatabase.updatePreferences`. -/
def updatePreferences (db : NotificationDatabase) (userId : String)
    (u : PreferencesUpdate) (now : Nat) :
    NotificationDatabase × Option NotificationPreferences :=
  match updatePreferencesList userId u now db.preferences with
  | none => (db, none)
  | some (l, p2) => ({ db with preferences := l }, some p2)

/-- `findTemplateByTypeAndChannel`: first active template of the given type
whose channel list contains the channel. -/
def findTemplateByTypeAndChannel (db : NotificationDatabase)
    (type : NotificationType) (channel : NotificationChannel) :
    Option NotificationTemplate :=
  db.templates.find? (fun t =>
    t.type == type && t.channels.contains channel && t.isActive)

/-- `Partial<NotificationHistory>` restricted to the fields the service
actually updates (`status`, `deliveredAt`, `failedAt`, `errorMessage`). -/
structure HistoryUpdate where
  status : Option NotificationStatus := none
  deliveredAt : Option Nat := none
  failedAt : Option Nat := none
  errorMessage : Option String := none
  deriving DecidableEq, Repr

/-- The JS spread merge for a history record, `updatedAt` set last. -/
def applyHistoryUpdate (h : NotificationHistory) (u : HistoryUpdate)
    (now : Nat) : NotificationHistory :=
  { h with
    status := u.status.getD h.status
    deliveredAt := match u.deliveredAt with
      | some v => some v
      | none => h.deliveredAt
    failedAt := match u.failedAt with
      | some v => some v
      | none => h.failedAt
    errorMessage := match u.errorMessage with
      | some v => some v
      | none => h.errorMessage
    updatedAt := now }

/-- `updateHistory` over the backing list (first `findIndex` match). -/
def updateHistoryList (id : String) (u : HistoryUpdate) (now : Nat) :
    List NotificationHistory → List NotificationHistory
  | [] => []
  | h :: rest =>
    if h.id == id then applyHistoryUpdate h u now :: rest
    else h :: updateHistoryList id u now rest

/-- `NotificationDatabase.updateHistory` (the service ignores its return
value, so only the resulting state is modelled). -/
def updateHistory (db : NotificationDatabase) (id : String)
    (u : HistoryUpdate) (now : Nat) : NotificationDatabase :=
  { db with history := updateHistoryList id u now db.history }

/-- `getDefaultChannelsForType` from `notification.service.ts`. -/
def getDefaultChannelsForType : NotificationType → List NotificationChannel
  | .security_alert => [.email, .sms]
  | .login_alert => [.email, .sms]
  | .transaction_confirmation => [.email, .push]
  | .transaction_pending => [.email, .push]
  | .transaction_failed => [.email, .push]
  | .marketing_campaign => [.email, .push]
  | .system_maintenance => [.email, .push, .sms]
  | _ => [.email]

/-- `getRecipientForChannel`: a fixed placeholder computed from
`(userId, channel)` alone (the comments in the source mark the real lookups
as not implemented). -/
def getRecipientForChannel (userId : String) :
    NotificationChannel → String
  | .email => "user" ++ userId ++ "@example.com"
  | .sms => "+1234567890"
  | .push => "fcm_token_" ++ userId

/-- The same switch at the runtime level, where a TS string-enum value is
just a string and the `default` branch returns the empty string. -/
def getRecipientForChannelRaw (userId : String) (channel : String) : String :=
  if channel == "email" then "user" ++ userId ++ "@example.com"
  else if channel == "sms" then "+1234567890"
  else if channel == "push" then "fcm_token_" ++ userId
  else ""

/-- The string value of a channel enum constant. -/
def channelValue : NotificationChannel → String
  | .email => "email"
  | .sms => "sms"
  | .push => "push"

/-- The request shape accepted by `sendNotification`. -/
structure SendNotificationRequest where
  userId : String
  type : NotificationType
  channels : Option (List NotificationChannel) := none
  data : List (String × String) := []
  priority : Option NotificationPriority := none
  scheduledAt : Option Nat := none
  deriving DecidableEq, Repr

/-- The response shape returned by `sendNotification`. -/
structure SendNotificationResponse where
  success : Bool
  jobIds : List String
  message : String
  deriving DecidableEq, Repr

/-- What `sendNotification` asked the queue to do with one created job. -/
inductive DispatchAction
  | queued (jobId : String)
  | scheduled (jobId : String) (time : Nat)
  deriving DecidableEq, Repr

/-- The state after `sendNotification`'s opening step: when no preference
record exists for the requester, a default record is created before any
filtering happens. -/
def resolutionState (db : NotificationDatabase)
    (req : SendNotificationRequest) (now : Nat) : NotificationDatabase :=
  match findPreferencesByUserId db req.userId with
  | some _ => db
  | none => (createDefaultPreferences db req.userId now).1

/-- The channel set `sendNotification` actually dispatches to: the request
channels (or the per-type defaults) filtered through the preference store
as it stands after `resolutionState`. -/
def resolvedChannels (db : NotificationDatabase)
    (req : SendNotificationRequest) (now : Nat) : List NotificationChannel :=
  filterEnabledChannels (resolutionState db req now) req.userId
    (req.channels.getD (getDefaultChannelsForType req.type)) req.type

/-- The job record `notificationDb.createJob` receives in the send loop. -/
def mkJob (req : SendNotificationRequest) (priority : NotificationPriority)
    (now : Nat) (id : String) (c : NotificationChannel) : NotificationJob :=
  { id := id
    userId := req.userId
    templateId := ""
    type := req.type
    channel := c
    recipient := getRecipientForChannel req.userId c
    data := req.data
    priority := priority
    scheduledAt := req.scheduledAt
    attempts := 0
    maxAttempts := 3
    createdAt := now }

/-- The per-channel loop of `sendNotification`: create a job, then either
schedule it (future `scheduledAt`) or queue it immediately.  `newId k` is
the UUID minted for the k-th created job. -/
def createJobs (req : SendNotificationRequest)
    (priority : NotificationPriority) (now : Nat) (newId : Nat → String) :
    NotificationDatabase → Nat → List NotificationChannel →
    NotificationDatabase × List String × List DispatchAction
  | db, _, [] => (db, [], [])
  | db, k, c :: rest =>
    let job := mkJob req priority now (newId k) c
    let db1 := { db with jobs := db.jobs ++ [job] }
    let action := match req.scheduledAt with
      | some t => if now < t then DispatchAction.scheduled job.id t
                  else DispatchAction.queued job.id
      | none => DispatchAction.queued job.id
    let r := createJobs req priority now newId db1 (k + 1) rest
    (r.1, job.id :: r.2.1, action :: r.2.2)

/-- `NotificationService.sendNotification`: default-preference creation,
channel resolution, the empty-set early return, and the job-creation
loop. -/
def sendNotification (db : NotificationDatabase)
    (req : SendNotificationRequest) (now : Nat) (newId : Nat → String) :
    NotificationDatabase × SendNotificationResponse × List DispatchAction :=
  let db0 := resolutionState db req now
  let enabledChannels := resolvedChannels db req now
  if enabledChannels.isEmpty then
    (db0,
     { success := true
       jobIds := []
       message := "User has disabled notifications for this channel" },
     [])
  else
    let priority := req.priority.getD .normal
    let r := createJobs req priority now newId db0 0 enabledChannels
    (r.1,
     { success := true
       jobIds := r.2.1
       message := "Notification queued for " ++ toString enabledChannels.length
         ++ " channel(s)" },
     r.2.2)

/-- A Handlebars oracle: what `Handlebars.compile` + application does for a
given template and data map.  An `Except.error` stands for a compile or
render exception. -/
def RenderOracle : Type :=
  NotificationTemplate → List (String × String) → Except String (String × String)

/-- `renderTemplate`: delegates to Handlebars and rethrows any failure as
`Error('Template rendering failed')`. -/
def renderTemplate (render : RenderOracle) (t : NotificationTemplate)
    (data : List (String × String)) : Except String (String × String) :=
  match render t data with
  | .ok r => .ok r
  | .error _ => .error "Template rendering failed"

/-- The body of `processNotificationJob` without its outer `try`/`catch`.
`senderOk c` is the boolean result of the channel sender call for channel
`c`; `freshId` is the UUID minted for the history record.  An
`Except.error` carries the message of the escaping exception together with
the database state at the moment it escaped (the in-memory store is shared
mutable state, so effects before a throw persist). -/
def processNotificationJobBody (db : NotificationDatabase)
    (job : NotificationJob) (render : RenderOracle)
    (senderOk : NotificationChannel → Bool) (now : Nat) (freshId : String) :
    Except (String × NotificationDatabase) (Bool × NotificationDatabase) :=
  match findTemplateByTypeAndChannel db job.type job.channel with
  | none => .ok (false, db)
  | some template =>
    let hist : NotificationHistory :=
      { id := freshId
        userId := job.userId
        templateId := template.id
        type := job.type
        channel := job.channel
        recipient := job.recipient
        subject := template.subject
        content := template.content
        status := .pending
        deliveredAt := none
        failedAt := none
        errorMessage := none
        retryCount := job.attempts
        metadata := job.data
        createdAt := now
        updatedAt := now }
    let db1 := { db with history := db.history ++ [hist] }
    match renderTemplate render template job.data with
    | .error e => .error (e, db1)
    | .ok _ =>
      let success := senderOk job.channel
      if success then
        (.ok (true,
          updateHistory db1 freshId
            { status := some .delivered, deliveredAt := some now } now))
      else
        (.ok (false,
          updateHistory db1 freshId
            { status := some .failed
              failedAt := some now
              errorMessage := some "Delivery failed" } now))

/-- `processNotificationJob`: the body with its outer catch, which logs and
returns `false` on any escaping exception. -/
def processNotificationJob (db : NotificationDatabase)
    (job : NotificationJob) (render : RenderOracle)
    (senderOk : NotificationChannel → Bool) (now : Nat) (freshId : String) :
    Bool × NotificationDatabase :=
  match processNotificationJobBody db job render senderOk now freshId with
  | .ok r => r
  | .error (_, db1) => (false, db1)

/-- `QueueService.processQueueJob`, the Bull worker callback: a `false`
from `processNotificationJob` is converted into a thrown error, which is
what makes Bull count a failed attempt and apply its retry policy; the
inner message is wrapped by the outer catch. -/
def processQueueJob (db : NotificationDatabase) (job : NotificationJob)
    (render : RenderOracle) (senderOk : NotificationChannel → Bool)
    (now : Nat) (freshId : String) :
    Except String (Bool × String) × NotificationDatabase :=
  let r := processNotificationJob db job render senderOk now freshId
  if r.1 then (.ok (true, job.id), r.2)
  else
    (.error "Failed to process notification: Notification processing failed",
     r.2)

/-- How a notification left the admission step of the queue service. -/
inductive QueueAdmission
  | enqueued (delayMs : Nat)
  | processedDirectly
  | dropped
  deriving DecidableEq, Repr

/-- `QueueService.queueNotification`.  `queueAvailable` is whether
initialization produced a Bull queue; `addOk` is whether `queue.add`
succeeds.  On either failure the job is handed to
`processNotificationDirectly`, which runs `processNotificationJob`
in-process (its own catch swallows any error). -/
def queueNotification (queueAvailable addOk : Bool)
    (db : NotificationDatabase) (job : NotificationJob)
    (render : RenderOracle) (senderOk : NotificationChannel → Bool)
    (now : Nat) (freshId : String) :
    QueueAdmission × NotificationDatabase :=
  if !queueAvailable then
    (.processedDirectly,
     (processNotificationJob db job render senderOk now freshId).2)
  else if addOk then (.enqueued 0, db)
  else
    (.processedDirectly,
     (processNotificationJob db job render senderOk now freshId).2)

/-- `QueueService.scheduleNotification`.  With no queue it logs
"cannot schedule notification" and returns; when `queue.add` throws it logs
and returns.  Neither failure path attempts direct processing. -/
def scheduleNotification (queueAvailable addOk : Bool)
    (db : NotificationDatabase) (scheduledAt now : Nat) :
    QueueAdmission × NotificationDatabase :=
  if !queueAvailable then (.dropped, db)
  else if addOk then (.enqueued (scheduledAt - now), db)
  else (.dropped, db)

/-- The analytics filter predicate of `getAnalytics`: drop records that
miss the user filter, start before `startDate`, or end after `endDate`. -/
def analyticsKeep (startDate endDate : Option Nat) (userId : Option String)
    (h : NotificationHistory) : Bool :=
  (match userId with
   | some u => h.userId == u
   | none => true) &&
  (match startDate with
   | some s => !(h.createdAt < s)
   | none => true) &&
  (match endDate with
   | some e => !(e < h.createdAt)
   | none => true)

/-- The filtered history set `getAnalytics` aggregates over (when no filter
is given the whole history is used, which the filter reproduces). -/
def filteredHistory (db : NotificationDatabase)
    (startDate endDate : Option Nat) (userId : Option String) :
    List NotificationHistory :=
  if startDate.isSome || endDate.isSome || userId.isSome then
    db.history.filter (analyticsKeep startDate endDate userId)
  else db.history

/-- The scalar aggregates of `NotificationAnalytics` (the per-channel,
per-type and per-day breakdowns repeat the same counting pattern over
sub-filtered lists). -/
structure AnalyticsTotals where
  totalSent : Nat
  totalDelivered : Nat
  totalFailed : Nat
  deliveryRate : ℚ
  averageDeliveryTime : ℚ
  deriving DecidableEq, Repr

/-- `NotificationDatabase.getAnalytics`: counts over the filtered set, with
guarded divisions (`x > 0 ? ... : 0`). -/
def getAnalytics (db : NotificationDatabase)
    (startDate endDate : Option Nat) (userId : Option String) :
    AnalyticsTotals :=
  let fh := filteredHistory db startDate endDate userId
  let totalSent := fh.length
  let totalDelivered :=
    (fh.filter (fun h => h.status == NotificationStatus.delivered)).length
  let totalFailed :=
    (fh.filter (fun h => h.status == NotificationStatus.failed)).length
  let deliveryRate : ℚ :=
    if totalSent > 0 then (totalDelivered : ℚ) / (totalSent : ℚ) * 100 else 0
  let deliveredNotifications :=
    fh.filter (fun h =>
      h.status == NotificationStatus.delivered && h.deliveredAt.isSome)
  let averageDeliveryTime : ℚ :=
    if deliveredNotifications.length > 0 then
      ((deliveredNotifications.map (fun h =>
          ((h.deliveredAt.getD 0 : ℤ) - (h.createdAt : ℤ)))).sum : ℚ) /
        (deliveredNotifications.length : ℚ)
    else 0
  { totalSent := totalSent
    totalDelivered := totalDelivered
    totalFailed := totalFailed
    deliveryRate := deliveryRate
    averageDeliveryTime := averageDeliveryTime }

/-- Which code path a channel sender took for one delivery. -/
inductive SendPath
  | loggedOnly
  | providerCall
  | misconfigured
  deriving DecidableEq, Repr

/-- The Twilio slice of the configuration. -/
structure SMSConfig where
  twilioAccountSid : Option String
  twilioAuthToken : Option String
  twilioPhoneNumber : Option String
  deriving DecidableEq, Repr

/-- `SMSService.initialize`: a client exists exactly when both the account
SID and the auth token are configured. -/
def smsClientConfigured (cfg : SMSConfig) : Bool :=
  cfg.twilioAccountSid.isSome && cfg.twilioAuthToken.isSome

/-- `SMSService.sendSMS`.  `providerOk` is whether the Twilio
`messages.create` call succeeds (its exception is caught and turned into
`false`).  With no client the SMS is logged and `true` returned. -/
def sendSMS (cfg : SMSConfig) (providerOk : Bool) (toNumber msg : String) :
    Bool × SendPath :=
  if !smsClientConfigured cfg then (true, .loggedOnly)
  else if cfg.twilioPhoneNumber.isNone then (false, .misconfigured)
  else (providerOk, .providerCall)

/-- `PushNotificationService.initialize`: a Firebase app exists exactly
when both credentials are configured and `initializeApp` did not throw. -/
def firebaseApps (serverKey projectId : Option String) (initOk : Bool) :
    Bool :=
  serverKey.isSome && projectId.isSome && initOk

/-- `PushNotificationService.sendPushNotification` for a single token.
With no Firebase app the notification is logged and `true` returned;
otherwise `providerOk` is whether `messaging().send` succeeds (an
exception is caught and turned into `false`). -/
def sendPushNotification (appsNonEmpty providerOk : Bool)
    (token title body : String) : Bool × SendPath :=
  if !appsNonEmpty then (true, .loggedOnly)
  else (providerOk, .providerCall)

/-! Concrete fixtures used by counterexamples and witnesses. -/

/-- A preference record whose push block has the master switch on but
`systemNotifications` off. -/
def prefsPushNoSys : NotificationPreferences :=
  { userId := "u1"
    email :=
      { enabled := true
        transactionUpdates := true
        securityAlerts := true
        marketingEmails := true
        systemNotifications := true }
    sms :=
      { enabled := true
        transactionUpdates := true
        securityAlerts := true
        criticalAlerts := true }
    push :=
      { enabled := true
        transactionUpdates := true
        securityAlerts := true
        marketingUpdates := true
        systemNotifications := false }
    createdAt := 0
    updatedAt := 0 }

/-- A store holding only `prefsPushNoSys`. -/
def dbPushNoSys : NotificationDatabase :=
  { preferences := [prefsPushNoSys], templates := [], history := [], jobs := [] }

/-- The empty store (fresh process, no records at all). -/
def dbEmpty : NotificationDatabase :=
  { preferences := [], templates := [], history := [], jobs := [] }

/-- A marketing send request naming the email channel explicitly. -/
def reqMarketing : SendNotificationRequest :=
  { userId := "u1"
    type := .marketing_campaign
    channels := some [.email] }

/-- A welcome template active for email only (the default catalog has no
sms welcome template). -/
def tmplWelcomeEmail : NotificationTemplate :=
  { id := "t1"
    name := "Welcome Message"
    type := .welcome
    channels := [.email]
    subject := "Welcome to ChainRemit!"
    content := "welcome body"
    templateVariables := ["firstName"]
    isActive := true
    createdAt := 0
    updatedAt := 0 }

/-- A store whose template catalog has no (welcome, sms) template. -/
def dbWelcomeEmailOnly : NotificationDatabase :=
  { preferences := [], templates := [tmplWelcomeEmail], history := [], jobs := [] }

/-- A job requesting welcome over sms (no template exists for it). -/
def jobWelcomeSms : NotificationJob :=
  { id := "j1"
    userId := "u1"
    templateId := ""
    type := .welcome
    channel := .sms
    recipient := "+1234567890"
    data := []
    priority := .normal
    scheduledAt := none
    attempts := 0
    maxAttempts := 3
    createdAt := 0 }

/-- The sibling job over email (a template does exist for it). -/
def jobWelcomeEmail : NotificationJob :=
  { id := "j2"
    userId := "u1"
    templateId := ""
    type := .welcome
    channel := .email
    recipient := "useru1@example.com"
    data := []
    priority := .normal
    scheduledAt := none
    attempts := 0
    maxAttempts := 3
    createdAt := 0 }

/-- A Handlebars oracle that always renders (subject, content) as-is. -/
def renderConst : RenderOracle := fun t _ => .ok (t.subject, t.content)

/-- A Handlebars oracle that always throws. -/
def renderBoom : RenderOracle := fun _ _ => .error "Parse error"

/-- A preference record with every master switch off. -/
def prefsAllOff : NotificationPreferences :=
  { userId := "u2"
    email :=
      { enabled := false
        transactionUpdates := true
        securityAlerts := true
        marketingEmails := false
        systemNotifications := true }
    sms :=
      { enabled := false
        transactionUpdates := true
        securityAlerts := true
        criticalAlerts := true }
    push :=
      { enabled := false
        transactionUpdates := true
        securityAlerts := true
        marketingUpdates := false
        systemNotifications := true }
    createdAt := 0
    updatedAt := 0 }

/-- A store holding only `prefsAllOff`. -/
def dbAllOff : NotificationDatabase :=
  { preferences := [prefsAllOff], templates := [], history := [], jobs := [] }

/-- A welcome send request from the all-off user. -/
def reqAllOff : SendNotificationRequest :=
  { userId := "u2"
    type := .welcome
    channels := some [.email, .sms, .push] }

/-- A fully-specified email block used in update fixtures. -/
def emailBlockOff : EmailPrefs :=
  { enabled := false
    transactionUpdates := false
    securityAlerts := true
    marketingEmails := false
    systemNotifications := true }

/-- An update request touching only the email block. -/
def updEmailOnly : PreferencesUpdate :=
  { email := some emailBlockOff }

/-- A history record fixture for the analytics claim. -/
def mkHist (id : String) (st : NotificationStatus) : NotificationHistory :=
  { id := id
    userId := "u1"
    templateId := "t1"
    type := .welcome
    channel := .email
    recipient := "useru1@example.com"
    subject := "s"
    content := "c"
    status := st
    deliveredAt := if st == NotificationStatus.delivered then some 10 else none
    failedAt := if st == NotificationStatus.failed then some 10 else none
    errorMessage := none
    retryCount := 0
    metadata := []
    createdAt := 0
    updatedAt := 0 }

/-- Ten history records: eight delivered, two failed. -/
def fixtureDb : NotificationDatabase :=
  { preferences := []
    templates := []
    history :=
      [mkHist "h1" .delivered, mkHist "h2" .delivered, mkHist "h3" .delivered,
       mkHist "h4" .delivered, mkHist "h5" .delivered, mkHist "h6" .delivered,
       mkHist "h7" .delivered, mkHist "h8" .delivered,
       mkHist "h9" .failed, mkHist "h10" .failed]
    jobs := [] }

/-- A Twilio configuration with no credentials. -/
def smsCfgNoCreds : SMSConfig :=
  { twilioAccountSid := none
    twilioAuthToken := none
    twilioPhoneNumber := some "+15550000000" }

/-! Shared helper lemmas. -/

/-- The master-switch guard `if (!enabled) return false; return flag`
equals the conjunction `enabled && flag`. -/
theorem guard_eq_and (e x : Bool) : (if !e then false else x) = (e && x) := by
  cases e <;> simp

/-- The code's per-channel resolver agrees everywhere with the spec's
mapping table amended at the single (push, email_verification) cell. -/
theorem isChannelEnabledForType_eq_amended (p : NotificationPreferences)
    (c : NotificationChannel) (t : NotificationType) :
    isChannelEnabledForType p c t =
      (masterEnabled p c && specCategoryAllowedAmended p c t) := by
  cases c <;> cases t <;>
    simp [isChannelEnabledForType, masterEnabled, specCategoryAllowedAmended,
      specCategoryAllowed, isEmailTypeEnabled, isSMSTypeEnabled,
      isPushTypeEnabled, guard_eq_and]

/-! C1. The claim reads the resolution as master flag AND the spec table's
category flag.  The code deviates at exactly one cell: for the push
channel, `email_verification` is not in the `systemNotifications` case
group of `isPushTypeEnabled`, so it falls to the default (allowed), while
the spec's table maps it to `push.systemNotifications`. -/

/-- C1 counterexample: with `push.enabled = true` and
`push.systemNotifications = false`, a requested push channel for an
`email_verification` notification IS included in the resolved set, yet the
claimed right-hand side (master flag AND spec-mapped category flag) is
false. -/
theorem filterEnabledChannels_spec_mapping_counterexample :
    NotificationChannel.push ∈
      filterEnabledChannels dbPushNoSys "u1" [NotificationChannel.push]
        NotificationType.email_verification ∧
    ¬(masterEnabled prefsPushNoSys NotificationChannel.push = true ∧
      specCategoryAllowed prefsPushNoSys NotificationChannel.push
        NotificationType.email_verification = true) := by
  decide

/-- C1 (amended): for every user with an existing preference record, a
requested channel is in the resolved set iff the channel's master enabled
flag is true AND the category flag of the spec's mapping table — amended so
that push treats `email_verification` as an unmapped type (allowed) — is
true; unmapped types stay allowed for email/push and disallowed for SMS. -/
theorem filterEnabledChannels_mapping_amended
    (db : NotificationDatabase) (userId : String)
    (prefs : NotificationPreferences)
    (h : findPreferencesByUserId db userId = some prefs)
    (type : NotificationType) (requested : List NotificationChannel)
    (channel : NotificationChannel) :
    channel ∈ filterEnabledChannels db userId requested type ↔
      channel ∈ requested ∧ masterEnabled prefs channel = true ∧
        specCategoryAllowedAmended prefs channel type = true := by
  unfold filterEnabledChannels
  rw [h, List.mem_filter, isChannelEnabledForType_eq_amended,
    Bool.and_eq_true]

/-- C1 witness: the amended equivalence evaluated on a concrete store. -/
theorem filterEnabledChannels_mapping_amended_witness :
    findPreferencesByUserId dbPushNoSys "u1" = some prefsPushNoSys ∧
    (NotificationChannel.push ∈
        filterEnabledChannels dbPushNoSys "u1"
          [NotificationChannel.push] NotificationType.welcome ↔
      NotificationChannel.push ∈ [NotificationChannel.push] ∧
        masterEnabled prefsPushNoSys NotificationChannel.push = true ∧
        specCategoryAllowedAmended prefsPushNoSys NotificationChannel.push
          NotificationType.welcome = true) :=
  ⟨by decide,
   filterEnabledChannels_mapping_amended dbPushNoSys "u1" prefsPushNoSys
     (by decide) NotificationType.welcome [NotificationChannel.push]
     NotificationChannel.push⟩

/-- Searching a list extended on the right finds the new element when the
original list has no match and the new element matches. -/
theorem find?_append_singleton {α : Type} (p : α → Bool) (l : List α) (x : α)
    (h : l.find? p = none) (hx : p x = true) :
    (l ++ [x]).find? p = some x := by
  induction l with
  | nil => simp [List.find?, hx]
  | cons a l ih =>
    rcases List.find?_eq_none.mp h a (by simp) with ha
    have hrest : l.find? p = none := by
      rw [List.find?_eq_none] at h ⊢
      intro y hy
      exact h y (by simp [hy])
    simp only [List.cons_append, List.find?]
    rw [Bool.not_eq_true] at ha
    rw [ha]
    exact ih hrest

/-! C2. In `sendNotification` the default record is created BEFORE the
filtering step, so for a fresh user the requested channels are filtered
through the freshly created defaults rather than passed through unchanged:
marketing types (whose default flags are false) and types without an SMS
mapping are excluded.  Only the standalone `filterEnabledChannels`, called
with a store that still has no record, passes the request through. -/

/-- C2 counterexample: a fresh user (no preference record) requesting a
`marketing_campaign` over [email] gets an empty resolved channel set, not
the requested set unchanged. -/
theorem resolveChannels_fresh_user_counterexample :
    findPreferencesByUserId dbEmpty "u1" = none ∧
    reqMarketing.channels = some [NotificationChannel.email] ∧
    resolvedChannels dbEmpty reqMarketing 0 = [] := by
  decide

/-- C2 (amended): for a fresh user, `sendNotification` first appends a
default preference record (all flags true except `email.marketingEmails`
and `push.marketingUpdates`), and the resolution step then filters the
requested channels through that default record; it equals the requested
set only when each requested channel's default-mapped flag allows the
type. -/
theorem resolveChannels_fresh_user_amended
    (db : NotificationDatabase) (req : SendNotificationRequest) (now : Nat)
    (h : findPreferencesByUserId db req.userId = none) :
    (resolutionState db req now).preferences =
      db.preferences ++ [(createDefaultPreferences db req.userId now).2] ∧
    (createDefaultPreferences db req.userId now).2 =
      { userId := req.userId
        email :=
          { enabled := true
            transactionUpdates := true
            securityAlerts := true
            marketingEmails := false
            systemNotifications := true }
        sms :=
          { enabled := true
            transactionUpdates := true
            securityAlerts := true
            criticalAlerts := true }
        push :=
          { enabled := true
            transactionUpdates := true
            securityAlerts := true
            marketingUpdates := false
            systemNotifications := true }
        createdAt := now
        updatedAt := now } ∧
    resolvedChannels db req now =
      (req.channels.getD (getDefaultChannelsForType req.type)).filter
        (fun c =>
          isChannelEnabledForType
            (createDefaultPreferences db req.userId now).2 c req.type) := by
  refine ⟨?_, rfl, ?_⟩
  · unfold resolutionState
    rw [h]
    rfl
  · unfold resolvedChannels filterEnabledChannels resolutionState
    rw [h]
    have hfound :
        findPreferencesByUserId (createDefaultPreferences db req.userId now).1
          req.userId = some (createDefaultPreferences db req.userId now).2 := by
      unfold findPreferencesByUserId createDefaultPreferences
      exact find?_append_singleton _ _ _ h (by simp)
    rw [hfound]

/-- C2 witness: the amended statement evaluated on the empty store. -/
theorem resolveChannels_fresh_user_amended_witness :
    findPreferencesByUserId dbEmpty "u1" = none ∧
    ((resolutionState dbEmpty reqMarketing 0).preferences =
      dbEmpty.preferences ++
        [(createDefaultPreferences dbEmpty "u1" 0).2] ∧
    (createDefaultPreferences dbEmpty "u1" 0).2 =
      { userId := "u1"
        email :=
          { enabled := true
            transactionUpdates := true
            securityAlerts := true
            marketingEmails := false
            systemNotifications := true }
        sms :=
          { enabled := true
            transactionUpdates := true
            securityAlerts := true
            criticalAlerts := true }
        push :=
          { enabled := true
            transactionUpdates := true
            securityAlerts := true
            marketingUpdates := false
            systemNotifications := true }
        createdAt := 0
        updatedAt := 0 } ∧
    resolvedChannels dbEmpty reqMarketing 0 =
      (reqMarketing.channels.getD
          (getDefaultChannelsForType reqMarketing.type)).filter
        (fun c =>
          isChannelEnabledForType
            (createDefaultPreferences dbEmpty "u1" 0).2 c
            reqMarketing.type)) :=
  ⟨by decide, resolveChannels_fresh_user_amended dbEmpty reqMarketing 0 (by decide)⟩

/-! C3. On a missing template, `processNotificationJob` logs and returns
`false` BEFORE any history record is created, so nothing is surfaced in
History; and `processQueueJob` converts the `false` into a thrown generic
error, which is exactly how Bull registers a failed attempt and applies its
retry/backoff policy — the permanent failure is not distinguished from a
transient one and does consume retry attempts. -/

/-- C3 counterexample: a (welcome, sms) job against a catalog with no such
template fails with the store completely unchanged — in particular History
stays empty, with no `failed` record and no "template not found" message —
and the worker callback raises the same generic error as any transient
failure, so Bull counts a retry attempt. -/
theorem processNotificationJob_template_missing_counterexample :
    processNotificationJob dbWelcomeEmailOnly jobWelcomeSms renderConst
      (fun _ => true) 5 "h1" = (false, dbWelcomeEmailOnly) ∧
    dbWelcomeEmailOnly.history = [] ∧
    (processQueueJob dbWelcomeEmailOnly jobWelcomeSms renderConst
        (fun _ => true) 5 "h1").1 =
      Except.error
        "Failed to process notification: Notification processing failed" := by
  refine ⟨rfl, rfl, rfl⟩

/-- C3 (amended): for every job whose (type, channel) pair has no active
template, processing returns failure immediately and leaves the store —
History included — unchanged, so sibling jobs are unaffected but no failed
History record is written; the queue callback reports the generic
processing error, so the failure consumes a retry attempt like any other
failure. -/
theorem processNotificationJob_template_missing_amended
    (db : NotificationDatabase) (job : NotificationJob)
    (render : RenderOracle) (senderOk : NotificationChannel → Bool)
    (now : Nat) (freshId : String)
    (h : findTemplateByTypeAndChannel db job.type job.channel = none) :
    processNotificationJob db job render senderOk now freshId = (false, db) ∧
    processQueueJob db job render senderOk now freshId =
      (Except.error
        "Failed to process notification: Notification processing failed",
       db) := by
  have h1 :
      processNotificationJob db job render senderOk now freshId = (false, db) := by
    unfold processNotificationJob processNotificationJobBody
    rw [h]
  refine ⟨h1, ?_⟩
  unfold processQueueJob
  rw [h1]
  simp

/-- C3 witness: the amended statement evaluated on the concrete
(welcome, sms) job; the sibling (welcome, email) job still finds its
template. -/
theorem processNotificationJob_template_missing_amended_witness :
    findTemplateByTypeAndChannel dbWelcomeEmailOnly jobWelcomeSms.type
        jobWelcomeSms.channel = none ∧
    (processNotificationJob dbWelcomeEmailOnly jobWelcomeSms renderConst
        (fun _ => true) 5 "h1" = (false, dbWelcomeEmailOnly) ∧
      processQueueJob dbWelcomeEmailOnly jobWelcomeSms renderConst
          (fun _ => true) 5 "h1" =
        (Except.error
          "Failed to process notification: Notification processing failed",
         dbWelcomeEmailOnly)) ∧
    findTemplateByTypeAndChannel dbWelcomeEmailOnly jobWelcomeEmail.type
        jobWelcomeEmail.channel = some tmplWelcomeEmail :=
  ⟨by decide,
   processNotificationJob_template_missing_amended dbWelcomeEmailOnly
     jobWelcomeSms renderConst (fun _ => true) 5 "h1" (by decide),
   by decide⟩

/-- The opening default-creation step never touches the job store. -/
theorem resolutionState_jobs (db : NotificationDatabase)
    (req : SendNotificationRequest) (now : Nat) :
    (resolutionState db req now).jobs = db.jobs := by
  unfold resolutionState
  cases findPreferencesByUserId db req.userId <;> rfl

/-- C4: when the resolved, preference-filtered channel set is empty,
`sendNotification` succeeds with an empty jobIds list and the explanatory
message, creates no jobs, and hands nothing to the queue. -/
theorem sendNotification_empty_channels
    (db : NotificationDatabase) (req : SendNotificationRequest) (now : Nat)
    (newId : Nat → String)
    (h : resolvedChannels db req now = []) :
    (sendNotification db req now newId).2.1 =
      { success := true
        jobIds := []
        message := "User has disabled notifications for this channel" } ∧
    (sendNotification db req now newId).1.jobs = db.jobs ∧
    (sendNotification db req now newId).2.2 = [] := by
  unfold sendNotification
  rw [h]
  exact ⟨rfl, resolutionState_jobs db req now, rfl⟩

/-- C4 witness: a user whose master switches are all off requesting all
three channels gets the empty-set response and no job is created. -/
theorem sendNotification_empty_channels_witness :
    resolvedChannels dbAllOff reqAllOff 0 = [] ∧
    ((sendNotification dbAllOff reqAllOff 0 (fun _ => "id")).2.1 =
      { success := true
        jobIds := []
        message := "User has disabled notifications for this channel" } ∧
    (sendNotification dbAllOff reqAllOff 0 (fun _ => "id")).1.jobs =
      dbAllOff.jobs ∧
    (sendNotification dbAllOff reqAllOff 0 (fun _ => "id")).2.2 = []) :=
  ⟨by decide,
   sendNotification_empty_channels dbAllOff reqAllOff 0 (fun _ => "id")
     (by decide)⟩

/-! C5. `queueNotification` falls back to synchronous in-process delivery
both when the queue is unavailable and when `queue.add` throws; but
`scheduleNotification` only logs in those two situations and returns
without any delivery attempt. -/

/-- C5 counterexample: with the queue unavailable, a scheduled
notification is dropped, not processed directly. -/
theorem scheduleNotification_drop_counterexample :
    scheduleNotification false true dbEmpty 10 0 =
      (QueueAdmission.dropped, dbEmpty) ∧
    QueueAdmission.dropped ≠ QueueAdmission.processedDirectly := by
  decide

/-- C5 (amended): immediate admission never silently drops a notification
— on queue unavailability or admission failure it always falls back to a
synchronous in-process delivery attempt — but scheduled admission has no
such fallback: in the same two situations `scheduleNotification` logs and
drops the notification. -/
theorem queueAdmission_fallback_amended :
    (∀ (queueAvailable addOk : Bool) (db : NotificationDatabase)
       (job : NotificationJob) (render : RenderOracle)
       (senderOk : NotificationChannel → Bool) (now : Nat) (freshId : String),
       (queueNotification queueAvailable addOk db job render senderOk now
           freshId).1 ≠ QueueAdmission.dropped) ∧
    (∀ (queueAvailable addOk : Bool) (db : NotificationDatabase)
       (job : NotificationJob) (render : RenderOracle)
       (senderOk : NotificationChannel → Bool) (now : Nat) (freshId : String),
       queueAvailable = false ∨ addOk = false →
       (queueNotification queueAvailable addOk db job render senderOk now
           freshId).1 = QueueAdmission.processedDirectly) ∧
    (∀ (queueAvailable addOk : Bool) (db : NotificationDatabase)
       (scheduledAt now : Nat),
       queueAvailable = false ∨ addOk = false →
       (scheduleNotification queueAvailable addOk db scheduledAt now).1 =
         QueueAdmission.dropped) := by
  refine ⟨?_, ?_, ?_⟩
  · intro qa addOk db job render senderOk now freshId
    cases qa <;> cases addOk <;> simp [queueNotification]
  · intro qa addOk db job render senderOk now freshId hyp
    rcases hyp with hq | ha
    · rw [hq]; simp [queueNotification]
    · rw [ha]; cases qa <;> simp [queueNotification]
  · intro qa addOk db s n hyp
    rcases hyp with hq | ha
    · rw [hq]; simp [scheduleNotification]
    · rw [ha]; cases qa <;> simp [scheduleNotification]

/-- C5 witness: the amended statement at a concrete unavailable queue. -/
theorem queueAdmission_fallback_amended_witness :
    (queueNotification false true dbWelcomeEmailOnly jobWelcomeEmail
        renderConst (fun _ => true) 5 "h1").1 ≠ QueueAdmission.dropped ∧
    ((false = false ∨ true = false) ∧
      (queueNotification false true dbWelcomeEmailOnly jobWelcomeEmail
          renderConst (fun _ => true) 5 "h1").1 =
        QueueAdmission.processedDirectly) ∧
    (scheduleNotification false true dbWelcomeEmailOnly 10 0).1 =
      QueueAdmission.dropped :=
  ⟨queueAdmission_fallback_amended.1 false true dbWelcomeEmailOnly
     jobWelcomeEmail renderConst (fun _ => true) 5 "h1",
   ⟨Or.inl rfl,
    queueAdmission_fallback_amended.2.1 false true dbWelcomeEmailOnly
      jobWelcomeEmail renderConst (fun _ => true) 5 "h1" (Or.inl rfl)⟩,
   queueAdmission_fallback_amended.2.2 false true dbWelcomeEmailOnly 10 0
     (Or.inl rfl)⟩

/-- When `find?` locates a record, `updatePreferencesList` replaces exactly
that first matching record with the merged one, leaving everything else in
place. -/
theorem updatePreferencesList_of_find? (userId : String)
    (u : PreferencesUpdate) (now : Nat) (l : List NotificationPreferences)
    (p : NotificationPreferences)
    (h : l.find? (fun q => q.userId == userId) = some p) :
    ∃ pre post,
      l = pre ++ p :: post ∧
      (∀ q ∈ pre, (q.userId == userId) = false) ∧
      updatePreferencesList userId u now l =
        some (pre ++ applyPreferencesUpdate p u now :: post,
          applyPreferencesUpdate p u now) := by
  induction l with
  | nil => simp [List.find?] at h
  | cons a l ih =>
    by_cases ha : (a.userId == userId) = true
    · have hp : a = p := by
        rw [List.find?] at h
        rw [ha] at h
        injection h
      subst hp
      refine ⟨[], l, rfl, by simp, ?_⟩
      simp [updatePreferencesList, ha]
    · rw [Bool.not_eq_true] at ha
      rw [List.find?] at h
      rw [ha] at h
      obtain ⟨pre, post, h1, h2, h3⟩ := ih h
      refine ⟨a :: pre, post, by simp [h1], ?_, ?_⟩
      · intro q hq
        rcases List.mem_cons.mp hq with rfl | hq
        · exact ha
        · exact h2 q hq
      · simp [updatePreferencesList, ha, h3]

/-- C6: for a user with an existing record, `updatePreferences` replaces
exactly the first matching record with the shallow merge of the update
into it — every field absent from the update keeps its previous value,
every present field takes the update's value, `updatedAt` is set to now —
and nothing else in the store (other records, templates, history, jobs)
changes. -/
theorem updatePreferences_merge_frame
    (db : NotificationDatabase) (userId : String) (u : PreferencesUpdate)
    (now : Nat) (p : NotificationPreferences)
    (h : findPreferencesByUserId db userId = some p) :
    (∃ pre post,
      db.preferences = pre ++ p :: post ∧
      (∀ q ∈ pre, (q.userId == userId) = false) ∧
      (updatePreferences db userId u now).1.preferences =
        pre ++ applyPreferencesUpdate p u now :: post) ∧
    (updatePreferences db userId u now).2 =
      some (applyPreferencesUpdate p u now) ∧
    (updatePreferences db userId u now).1.templates = db.templates ∧
    (updatePreferences db userId u now).1.history = db.history ∧
    (updatePreferences db userId u now).1.jobs = db.jobs ∧
    (u.userId = none → (applyPreferencesUpdate p u now).userId = p.userId) ∧
    (u.email = none → (applyPreferencesUpdate p u now).email = p.email) ∧
    (u.sms = none → (applyPreferencesUpdate p u now).sms = p.sms) ∧
    (u.push = none → (applyPreferencesUpdate p u now).push = p.push) ∧
    (u.createdAtField = none →
      (applyPreferencesUpdate p u now).createdAt = p.createdAt) ∧
    (∀ v, u.email = some v → (applyPreferencesUpdate p u now).email = v) ∧
    (∀ v, u.sms = some v → (applyPreferencesUpdate p u now).sms = v) ∧
    (∀ v, u.push = some v → (applyPreferencesUpdate p u now).push = v) ∧
    (applyPreferencesUpdate p u now).updatedAt = now := by
  obtain ⟨pre, post, h1, h2, h3⟩ :=
    updatePreferencesList_of_find? userId u now db.preferences p h
  refine ⟨⟨pre, post, h1, h2, ?_⟩, ?_, ?_, ?_, ?_, ?_, ?_, ?_, ?_, ?_,
    ?_, ?_, ?_, ?_⟩ <;>
    simp_all [updatePreferences, applyPreferencesUpdate]

/-- C6 witness: an update carrying only an email block, applied to the
store holding `prefsPushNoSys`. -/
theorem updatePreferences_merge_frame_witness :
    findPreferencesByUserId dbPushNoSys "u1" = some prefsPushNoSys ∧
    ((updatePreferences dbPushNoSys "u1" updEmailOnly 9).2 =
      some (applyPreferencesUpdate prefsPushNoSys updEmailOnly 9) ∧
    (applyPreferencesUpdate prefsPushNoSys updEmailOnly 9).sms =
      prefsPushNoSys.sms ∧
    (applyPreferencesUpdate prefsPushNoSys updEmailOnly 9).push =
      prefsPushNoSys.push ∧
    (applyPreferencesUpdate prefsPushNoSys updEmailOnly 9).email =
      emailBlockOff ∧
    (applyPreferencesUpdate prefsPushNoSys updEmailOnly 9).updatedAt = 9) :=
  ⟨by decide,
   (updatePreferences_merge_frame dbPushNoSys "u1" updEmailOnly 9
       prefsPushNoSys (by decide)).2.1,
   (updatePreferences_merge_frame dbPushNoSys "u1" updEmailOnly 9
       prefsPushNoSys (by decide)).2.2.2.2.2.2.2.1 rfl,
   (updatePreferences_merge_frame dbPushNoSys "u1" updEmailOnly 9
       prefsPushNoSys (by decide)).2.2.2.2.2.2.2.2.1 rfl,
   (updatePreferences_merge_frame dbPushNoSys "u1" updEmailOnly 9
       prefsPushNoSys (by decide)).2.2.2.2.2.2.2.2.2.2.1 emailBlockOff rfl,
   (updatePreferences_merge_frame dbPushNoSys "u1" updEmailOnly 9
       prefsPushNoSys (by decide)).2.2.2.2.2.2.2.2.2.2.2.2.2⟩

/-- C7: `getAnalytics` counts `totalSent` as the size of the filtered
history set; `deliveryRate` is delivered/sent × 100 whenever the set is
non-empty and 0 on the empty set (all aggregates are zero there, nothing
is thrown); the 10-record fixture with 8 delivered and 2 failed yields a
rate of exactly 80. -/
theorem getAnalytics_delivery_rate :
    (∀ (db : NotificationDatabase) (s e : Option Nat) (u : Option String),
      (getAnalytics db s e u).totalSent = (filteredHistory db s e u).length ∧
      (getAnalytics db s e u).totalDelivered =
        ((filteredHistory db s e u).filter
          (fun h => h.status == NotificationStatus.delivered)).length ∧
      (filteredHistory db s e u = [] →
        getAnalytics db s e u =
          { totalSent := 0
            totalDelivered := 0
            totalFailed := 0
            deliveryRate := 0
            averageDeliveryTime := 0 }) ∧
      (0 < (getAnalytics db s e u).totalSent →
        (getAnalytics db s e u).deliveryRate =
          ((getAnalytics db s e u).totalDelivered : ℚ) /
            ((getAnalytics db s e u).totalSent : ℚ) * 100)) ∧
    (getAnalytics fixtureDb none none none).totalSent = 10 ∧
    (getAnalytics fixtureDb none none none).totalDelivered = 8 ∧
    (getAnalytics fixtureDb none none none).totalFailed = 2 ∧
    (getAnalytics fixtureDb none none none).deliveryRate = 80 := by
  have hgen : ∀ (db : NotificationDatabase) (s e : Option Nat)
      (u : Option String),
      (getAnalytics db s e u).totalSent = (filteredHistory db s e u).length ∧
      (getAnalytics db s e u).totalDelivered =
        ((filteredHistory db s e u).filter
          (fun h => h.status == NotificationStatus.delivered)).length ∧
      (filteredHistory db s e u = [] →
        getAnalytics db s e u =
          { totalSent := 0
            totalDelivered := 0
            totalFailed := 0
            deliveryRate := 0
            averageDeliveryTime := 0 }) ∧
      (0 < (getAnalytics db s e u).totalSent →
        (getAnalytics db s e u).deliveryRate =
          ((getAnalytics db s e u).totalDelivered : ℚ) /
            ((getAnalytics db s e u).totalSent : ℚ) * 100) := by
    intro db s e u
    refine ⟨rfl, rfl, ?_, ?_⟩
    · intro hemp
      simp [getAnalytics, hemp]
    · intro hpos
      have hlen : 0 < (filteredHistory db s e u).length := hpos
      simp [getAnalytics, hlen]
  have h10 : (getAnalytics fixtureDb none none none).totalSent = 10 := by
    decide
  have h8 : (getAnalytics fixtureDb none none none).totalDelivered = 8 := by
    decide
  have hrate := (hgen fixtureDb none none none).2.2.2 (by rw [h10]; norm_num)
  refine ⟨hgen, h10, h8, by decide, ?_⟩
  rw [hrate, h8, h10]
  norm_num

/-- C7 witness: the general statement applied to the fixture store, where
the non-empty hypothesis is discharged concretely. -/
theorem getAnalytics_delivery_rate_witness :
    0 < (getAnalytics fixtureDb none none none).totalSent ∧
    (getAnalytics fixtureDb none none none).deliveryRate =
      ((getAnalytics fixtureDb none none none).totalDelivered : ℚ) /
        ((getAnalytics fixtureDb none none none).totalSent : ℚ) * 100 :=
  ⟨by decide,
   (getAnalytics_delivery_rate.1 fixtureDb none none none).2.2.2 (by decide)⟩

/-- C8: whenever provider credentials are absent (either Twilio credential
for SMS; either Firebase credential for push), the sender takes the
logged-only path and reports success, for every recipient and message. -/
theorem senders_logged_only_when_unconfigured :
    (∀ (cfg : SMSConfig) (providerOk : Bool) (toNumber msg : String),
       cfg.twilioAccountSid = none ∨ cfg.twilioAuthToken = none →
       sendSMS cfg providerOk toNumber msg = (true, SendPath.loggedOnly)) ∧
    (∀ (serverKey projectId : Option String) (initOk providerOk : Bool)
       (token title body : String),
       serverKey = none ∨ projectId = none →
       sendPushNotification (firebaseApps serverKey projectId initOk)
         providerOk token title body = (true, SendPath.loggedOnly)) := by
  constructor
  · intro cfg providerOk toNumber msg hyp
    rcases hyp with hsid | htok
    · simp [sendSMS, smsClientConfigured, hsid]
    · simp [sendSMS, smsClientConfigured, htok]
  · intro serverKey projectId initOk providerOk token title body hyp
    rcases hyp with hk | hp
    · simp [sendPushNotification, firebaseApps, hk]
    · simp [sendPushNotification, firebaseApps, hp]

/-- C8 witness: the credential-free Twilio configuration and a Firebase
configuration with no server key both take the logged-only success path. -/
theorem senders_logged_only_when_unconfigured_witness :
    (smsCfgNoCreds.twilioAccountSid = none ∨
      smsCfgNoCreds.twilioAuthToken = none) ∧
    sendSMS smsCfgNoCreds false "+2348000000000" "hello" =
      (true, SendPath.loggedOnly) ∧
    sendPushNotification (firebaseApps none (some "proj") true) false
      "tok1" "title" "body" = (true, SendPath.loggedOnly) :=
  ⟨Or.inl rfl,
   senders_logged_only_when_unconfigured.1 smsCfgNoCreds false
     "+2348000000000" "hello" (Or.inl rfl),
   senders_logged_only_when_unconfigured.2 none (some "proj") true false
     "tok1" "title" "body" (Or.inl rfl)⟩

/-- Every job present after the creation loop either was already in the
store or carries the placeholder recipient for its own channel. -/
theorem createJobs_recipient (req : SendNotificationRequest)
    (priority : NotificationPriority) (now : Nat) (newId : Nat → String) :
    ∀ (chans : List NotificationChannel) (db : NotificationDatabase)
      (k : Nat) (j : NotificationJob),
      j ∈ (createJobs req priority now newId db k chans).1.jobs →
      j ∈ db.jobs ∨
        j.recipient = getRecipientForChannel req.userId j.channel := by
  intro chans
  induction chans with
  | nil => intro db k j hj; exact Or.inl hj
  | cons c rest ih =>
    intro db k j hj
    rw [createJobs] at hj
    rcases ih _ (k + 1) j hj with hmem | hrec
    · rcases List.mem_append.mp hmem with hold | hnew
      · exact Or.inl hold
      · rcases List.mem_singleton.mp hnew with rfl
        exact Or.inr rfl
    · exact Or.inr hrec

/-- C9: the recipient is a fixed placeholder computed from
(userId, channel) alone — `user<userId>@example.com` for email, the
constant `+1234567890` for SMS, `fcm_token_<userId>` for push, and the
empty string for any other runtime channel value — and every job created
by `sendNotification` carries exactly that placeholder; no user record is
consulted (the store does not appear among the arguments) and the
computation is total. -/
theorem getRecipientForChannel_placeholder :
    (∀ userId : String,
       getRecipientForChannel userId NotificationChannel.email =
         "user" ++ userId ++ "@example.com" ∧
       getRecipientForChannel userId NotificationChannel.sms =
         "+1234567890" ∧
       getRecipientForChannel userId NotificationChannel.push =
         "fcm_token_" ++ userId ∧
       (∀ c : NotificationChannel,
          getRecipientForChannel userId c =
            getRecipientForChannelRaw userId (channelValue c)) ∧
       (∀ s : String, s ≠ "email" → s ≠ "sms" → s ≠ "push" →
          getRecipientForChannelRaw userId s = "")) ∧
    (∀ (db : NotificationDatabase) (req : SendNotificationRequest)
       (now : Nat) (newId : Nat → String) (j : NotificationJob),
       j ∈ (sendNotification db req now newId).1.jobs →
       j ∈ db.jobs ∨
         j.recipient = getRecipientForChannel req.userId j.channel) := by
  constructor
  · intro userId
    refine ⟨rfl, rfl, rfl, ?_, ?_⟩
    · intro c
      cases c <;> rfl
    · intro s h1 h2 h3
      simp [getRecipientForChannelRaw, h1, h2, h3]
  · intro db req now newId j hj
    unfold sendNotification at hj
    by_cases hemp : (resolvedChannels db req now).isEmpty = true
    · rw [if_pos hemp] at hj
      rw [resolutionState_jobs db req now] at hj
      exact Or.inl hj
    · rw [if_neg hemp] at hj
      rcases createJobs_recipient req (req.priority.getD .normal) now newId
          (resolvedChannels db req now) (resolutionState db req now) 0 j hj
        with hmem | hrec
      · rw [resolutionState_jobs db req now] at hmem
        exact Or.inl hmem
      · exact Or.inr hrec

/-- C9 witness: the equations at a concrete user, and the job created for
a concrete send request carries the email placeholder. -/
theorem getRecipientForChannel_placeholder_witness :
    getRecipientForChannel "42" NotificationChannel.email =
      "user42@example.com" ∧
    getRecipientForChannelRaw "42" "webhook" = "" :=
  ⟨by
    have := (getRecipientForChannel_placeholder.1 "42").1
    simpa using this,
   (getRecipientForChannel_placeholder.1 "42").2.2.2.2 "webhook"
     (by decide) (by decide) (by decide)⟩

/-- C10: `processNotificationJob` catches every escaping exception from
its body, returning `false` with the state as the body left it; in
particular a throwing render (any Handlebars failure, rethrown by
`renderTemplate` as "Template rendering failed") yields `false`, never a
propagated exception. -/
theorem processNotificationJob_never_throws :
    (∀ (db : NotificationDatabase) (job : NotificationJob)
       (render : RenderOracle) (senderOk : NotificationChannel → Bool)
       (now : Nat) (freshId : String) (e : String)
       (db1 : NotificationDatabase),
       processNotificationJobBody db job render senderOk now freshId =
         Except.error (e, db1) →
       processNotificationJob db job render senderOk now freshId =
         (false, db1)) ∧
    (∀ (db : NotificationDatabase) (job : NotificationJob)
       (render : RenderOracle) (senderOk : NotificationChannel → Bool)
       (now : Nat) (freshId : String) (t : NotificationTemplate)
       (msg : String),
       findTemplateByTypeAndChannel db job.type job.channel = some t →
       render t job.data = Except.error msg →
       (processNotificationJob db job render senderOk now freshId).1 =
         false) := by
  constructor
  · intro db job render senderOk now freshId e db1 hbody
    unfold processNotificationJob
    rw [hbody]
  · intro db job render senderOk now freshId t msg ht hrender
    unfold processNotificationJob processNotificationJobBody
    rw [ht]
    simp only [renderTemplate, hrender]

/-- C10 witness: a concrete job whose template exists but whose render
oracle throws is caught and reported as `false`. -/
theorem processNotificationJob_never_throws_witness :
    findTemplateByTypeAndChannel dbWelcomeEmailOnly jobWelcomeEmail.type
        jobWelcomeEmail.channel = some tmplWelcomeEmail ∧
    renderBoom tmplWelcomeEmail jobWelcomeEmail.data =
      Except.error "Parse error" ∧
    (processNotificationJob dbWelcomeEmailOnly jobWelcomeEmail renderBoom
        (fun _ => true) 5 "h1").1 = false :=
  ⟨by decide, rfl,
   processNotificationJob_never_throws.2 dbWelcomeEmailOnly jobWelcomeEmail
     renderBoom (fun _ => true) 5 "h1" tmplWelcomeEmail "Parse error"
     (by decide) rfl⟩

end ChainRemit
